import Mathlib

/-!
Verification of the response-judgment subsystem of the AI chat telemetry
backend (function evaluate_response in backend/routes.py): the heuristic
denylist pre-filter and the LLM judgment evaluator.  The Python code is
shallowly embedded as pure Lean functions: decoded JSON documents and the
dict the function returns become the inductive type PyVal, Python
exceptions become an explicit Except layer, and the single remote judge
call becomes an oracle parameter (its outcome) together with an oracle for
the standard-library JSON decoder.
-/

/-- Embedding of the Python values that can appear in a decoded JSON
document and in the dict returned by evaluate_response.  Python booleans
are a subclass of int; the embedding keeps them as a separate constructor
and recovers the subclass behaviour in isinstance_int and pyIntVal.
A dict is modelled as its association list in insertion order; dicts
produced by the JSON decoder have pairwise distinct keys. -/
inductive PyVal : Type where
  | none  : PyVal
  | bool  : Bool → PyVal
  | int   : Int → PyVal
  | float : Rat → PyVal
  | str   : String → PyVal
  | list  : List PyVal → PyVal
  | dict  : List (String × PyVal) → PyVal

/-- The Python exceptions that the body of evaluate_response can raise.
The inner except clause of the source catches exactly json.JSONDecodeError
and ValueError; everything else propagates to the outer except clause. -/
inductive PyExc : Type where
  | typeError : PyExc
  | keyError : PyExc
  | valueError : String → PyExc
  | jsonDecodeError : PyExc
  | apiError : String → PyExc

/-- Python isinstance(x, int): true for int and for bool, since bool is a
subclass of int. -/
def isinstance_int : PyVal → Bool
  | PyVal.int _ => true
  | PyVal.bool _ => true
  | _ => false

/-- Python isinstance(x, bool). -/
def isinstance_bool : PyVal → Bool
  | PyVal.bool _ => true
  | _ => false

/-- The integer value Python uses when an int-or-bool value appears in an
arithmetic comparison such as 1 <= x <= 5 (True counts as 1, False as 0).
Only ever applied after an isinstance_int guard, mirroring the
short-circuit in the source; the value on other constructors is never
relevant. -/
def pyIntVal : PyVal → Int
  | PyVal.int n => n
  | PyVal.bool b => if b then 1 else 0
  | _ => 0

/-- One step of Python substring search: does the second list occur as a
prefix of the first? -/
def charPrefixOf : List Char → List Char → Bool
  | [], _ => true
  | _ :: _, [] => false
  | c :: cs, d :: ds => c == d && charPrefixOf cs ds

/-- Python substring membership over the underlying character lists:
the first argument is the haystack, the second the needle. -/
def charListContains : List Char → List Char → Bool
  | _, [] => true
  | [], _ :: _ => false
  | c :: cs, sub => charPrefixOf sub (c :: cs) || charListContains cs sub

/-- Python membership of needle in haystack on strings (an unanchored substring
test; the empty needle is contained in every string). -/
def strContains (haystack needle : String) : Bool :=
  charListContains haystack.data needle.data

/-- Python str.lower restricted to the ASCII range (all denylist patterns
are ASCII). -/
def strLower (s : String) : String := String.mk (s.data.map Char.toLower)

/-- Python str.strip() == "" (equivalently: the string is empty or all of
its characters are whitespace), the emptiness test of routes.py line 153. -/
def is_blank (s : String) : Bool := s.data.all (fun c => c.isWhitespace)

/-- Lookup in the association list of a Python dict. -/
def dictGet (kvs : List (String × PyVal)) (k : String) : Option PyVal :=
  (kvs.find? (fun p => p.1 == k)).map (fun p => p.2)

/-- Python dict item assignment d[k] = v: replaces the value at an
existing key in place, otherwise appends the new pair at the end
(insertion order). -/
def dictSet (kvs : List (String × PyVal)) (k : String) (v : PyVal) :
    List (String × PyVal) :=
  if kvs.any (fun p => p.1 == k) then
    kvs.map (fun p => if p.1 == k then (k, v) else p)
  else kvs ++ [(k, v)]

/-- Python membership test of the string k in data, as used by the
required-field check of evaluate_response (line 160 of routes.py):
key lookup on a dict, element equality on a list (a string equals no
non-string), substring test on a str, and a TypeError on any
non-container value such as an int, float, bool or None. -/
def py_contains (data : PyVal) (k : String) : Except PyExc Bool :=
  match data with
  | PyVal.dict kvs => Except.ok (kvs.any (fun p => p.1 == k))
  | PyVal.list xs =>
      Except.ok (xs.any (fun x =>
        match x with
        | PyVal.str s => s == k
        | _ => false))
  | PyVal.str s => Except.ok (strContains s k)
  | _ => Except.error PyExc.typeError

/-- Python subscript data[k] for a string key k: dict lookup (KeyError
when absent); a str or list subscripted by a string, and any engine
non-subscriptable value, raise TypeError. -/
def py_getitem (data : PyVal) (k : String) : Except PyExc PyVal :=
  match data with
  | PyVal.dict kvs =>
      match kvs.find? (fun p => p.1 == k) with
      | some p => Except.ok p.2
      | Option.none => Except.error PyExc.keyError
  | _ => Except.error PyExc.typeError

/-- Python subscript assignment data[k] = v for a string key: only dicts
accept it; str and list (and everything else) raise TypeError. -/
def py_setitem (data : PyVal) (k : String) (v : PyVal) : Except PyExc PyVal :=
  match data with
  | PyVal.dict kvs => Except.ok (PyVal.dict (dictSet kvs k v))
  | _ => Except.error PyExc.typeError

/-- An apostrophe, kept out of string literals. -/
def apos : String := String.singleton (Char.ofNat 39)

/-- The denylist of known-fake device substrings (routes.py lines 60-63),
in source order. -/
def fake_patterns : List String :=
  ["letort", "goldblueRedgreen", "fakerouter", "xyz corp", "acme router",
   "test device", "sample router", "example switch", "demo router"]

/-- The rationale text of a pre-filter verdict (routes.py line 72),
naming the matched pattern. -/
def prefilter_rationale (pattern : String) : String :=
  "Response contains references to non-existent device " ++ apos ++ pattern
    ++ apos ++ ". This appears to be a fabricated product name that doesn"
    ++ apos ++ "t exist in reality."

/-- The dict returned by the pre-filter on a denylist match
(routes.py lines 70-75). -/
def prefilter_verdict (pattern : String) : PyVal :=
  PyVal.dict
    [("score", PyVal.int 1),
     ("rationale", PyVal.str (prefilter_rationale pattern)),
     ("hallucination_flag", PyVal.bool true),
     ("tokens", PyVal.int 0)]

/-- The heuristic pre-filter (routes.py lines 59-75): lower-case the
concatenation of prompt and response and return a verdict for the first
denylist pattern whose lower-casing occurs in it as a substring. -/
def prefilter (user_prompt ai_response : String) : Option PyVal :=
  (fake_patterns.find? (fun pattern =>
    strContains (strLower (user_prompt ++ " " ++ ai_response))
      (strLower pattern))).map prefilter_verdict

/-- The required fields of the judge JSON (routes.py line 159). -/
def required_fields : List String := ["score", "rationale", "hallucination_flag"]

/-- Python all(field in data for field in fields) with its lazy
left-to-right evaluation: stops at the first absent field, and a
membership test on a non-container raises through. -/
def all_fields_in (data : PyVal) : List String → Except PyExc Bool
  | [] => Except.ok true
  | f :: rest =>
    match py_contains data f with
    | Except.error e => Except.error e
    | Except.ok false => Except.ok false
    | Except.ok true => all_fields_in data rest

/-- The Neutral-Parse-Failure default (routes.py lines 189-194): the
inner except clause always has the billed token count in scope, since
evaluation_tokens is assigned before the inner try begins. -/
def parse_failure_default (toks : Nat) : PyVal :=
  PyVal.dict
    [("score", PyVal.int 3),
     ("rationale", PyVal.str "Evaluation parsing failed - assigned neutral score"),
     ("hallucination_flag", PyVal.bool false),
     ("tokens", PyVal.int toks)]

/-- The Neutral-Unavailable default (routes.py lines 200-205). -/
def neutral_unavailable : PyVal :=
  PyVal.dict
    [("score", PyVal.int 3),
     ("rationale", PyVal.str "Evaluation service unavailable - assigned neutral score"),
     ("hallucination_flag", PyVal.bool false),
     ("tokens", PyVal.int 0)]

/-- The body of the inner try of evaluate_response (routes.py lines
152-183), before its except clause: the emptiness check on the raw text,
the JSON decode (loads is the oracle for json.loads: none models
json.JSONDecodeError), the required-field check, the score and
hallucination-flag validation with Python short-circuit order, and the
insertion of the billed token count into the parsed dict. -/
def validate_evaluation (loads : String → Option PyVal) (text : String)
    (toks : Nat) : Except PyExc PyVal :=
  if text = "" ∨ is_blank text = true then
    Except.error (PyExc.valueError "Empty evaluation response from OpenAI")
  else
    match loads text with
    | Option.none => Except.error PyExc.jsonDecodeError
    | some data =>
      match all_fields_in data required_fields with
      | Except.error e => Except.error e
      | Except.ok false =>
          Except.error (PyExc.valueError "Missing required fields in evaluation response")
      | Except.ok true =>
        match py_getitem data "score" with
        | Except.error e => Except.error e
        | Except.ok sv =>
          if isinstance_int sv = false then
            Except.error (PyExc.valueError "Score must be an integer between 1 and 5")
          else if ¬ (1 ≤ pyIntVal sv ∧ pyIntVal sv ≤ 5) then
            Except.error (PyExc.valueError "Score must be an integer between 1 and 5")
          else
            match py_getitem data "hallucination_flag" with
            | Except.error e => Except.error e
            | Except.ok fv =>
              if isinstance_bool fv = false then
                Except.error (PyExc.valueError "Hallucination flag must be a boolean")
              else
                match py_setitem data "tokens" (PyVal.int toks) with
                | Except.error e => Except.error e
                | Except.ok withTokens => Except.ok withTokens

/-- Which exceptions the inner except clause catches (routes.py line 185):
exactly json.JSONDecodeError and ValueError. -/
def inner_catchable : PyExc → Bool
  | PyExc.jsonDecodeError => true
  | PyExc.valueError _ => true
  | _ => false

/-- The inner try/except of evaluate_response (routes.py lines 152-194):
a caught parse or validation error degrades to the Neutral-Parse-Failure
default with the billed token count; any other exception propagates. -/
def inner_evaluation (loads : String → Option PyVal) (text : String)
    (toks : Nat) : Except PyExc PyVal :=
  match validate_evaluation loads text toks with
  | Except.ok v => Except.ok v
  | Except.error e =>
      if inner_catchable e then Except.ok (parse_failure_default toks)
      else Except.error e

/-- The outcome of the single remote judge call
(openai.ChatCompletion.create at routes.py lines 132-140 together with
the content and usage extraction of lines 144-145): either the call (or
that extraction) raised, or it produced the raw evaluation text and the
billed token count. -/
inductive JudgeOutcome : Type where
  | failure : String → JudgeOutcome
  | success : String → Nat → JudgeOutcome

/-- The body of evaluate_response without its outer except clause
(routes.py lines 59-194): the pre-filter short-circuit, then the judge
call, then the inner evaluation.  The second component of a successful
result counts how many times the remote judge call was invoked (the
source has a single call site, so it is 0 on the pre-filter path and 1
otherwise); an exception can only arise after the call was invoked. -/
def evaluate_response_unprotected (loads : String → Option PyVal)
    (user_prompt ai_response : String) (judge : JudgeOutcome) :
    Except PyExc (PyVal × Nat) :=
  match prefilter user_prompt ai_response with
  | some verdict => Except.ok (verdict, 0)
  | Option.none =>
    match judge with
    | JudgeOutcome.failure msg => Except.error (PyExc.apiError msg)
    | JudgeOutcome.success text toks =>
      match inner_evaluation loads text toks with
      | Except.ok v => Except.ok (v, 1)
      | Except.error e => Except.error e

/-- evaluate_response (routes.py lines 48-205): the unprotected body
wrapped in the outer try/except, whose handler turns every exception into
the Neutral-Unavailable default.  The first component is the returned
dict; the second counts invocations of the remote judge call. -/
def evaluate_response (loads : String → Option PyVal)
    (user_prompt ai_response : String) (judge : JudgeOutcome) : PyVal × Nat :=
  match evaluate_response_unprotected loads user_prompt ai_response judge with
  | Except.ok res => res
  | Except.error _ => (neutral_unavailable, 1)

/-- Field access on the dict returned by evaluate_response. -/
def getField : PyVal → String → Option PyVal
  | PyVal.dict kvs, k => dictGet kvs k
  | _, _ => Option.none

/-- A successful dict lookup makes the any-test of the membership check true. -/
lemma any_of_dictGet {kvs : List (String × PyVal)} {k : String} {w : PyVal}
    (h : dictGet kvs k = some w) : kvs.any (fun p => p.1 == k) = true := by
  unfold dictGet at h
  rcases Option.map_eq_some'.mp h with ⟨pr, hfind, _⟩
  have hp := List.find?_some hfind
  exact List.any_eq_true.mpr ⟨pr, List.mem_of_find?_eq_some hfind, hp⟩

/-- A true any-test of the membership check yields a successful dict lookup. -/
lemma dictGet_of_any {kvs : List (String × PyVal)} {k : String}
    (h : kvs.any (fun p => p.1 == k) = true) : ∃ w, dictGet kvs k = some w := by
  rcases List.any_eq_true.mp h with ⟨pr, hmem, hp⟩
  have hs : (kvs.find? (fun p => p.1 == k)).isSome :=
    List.find?_isSome.mpr ⟨pr, hmem, hp⟩
  rcases Option.isSome_iff_exists.mp hs with ⟨pr2, hfind⟩
  exact ⟨pr2.2, by unfold dictGet; rw [hfind]; rfl⟩

/-- On a dict, the required-field check never raises and computes the
conjunction of the key-membership tests. -/
lemma all_fields_in_dict (kvs : List (String × PyVal)) :
    ∀ fs : List String, all_fields_in (PyVal.dict kvs) fs =
      Except.ok (fs.all (fun f => kvs.any (fun p => p.1 == f))) := by
  intro fs
  induction fs with
  | nil => rfl
  | cons f rest ih =>
    by_cases hf : kvs.any (fun p => p.1 == f) = true
    · simp only [all_fields_in, py_contains, hf, ih, List.all_cons, Bool.true_and]
    · simp only [all_fields_in, py_contains, hf, List.all_cons]
      simp only [Bool.not_eq_true] at hf
      simp [hf]

/-- Subscripting a dict at a present key returns its value. -/
lemma py_getitem_dict_of_get {kvs : List (String × PyVal)} {k : String} {w : PyVal}
    (h : dictGet kvs k = some w) : py_getitem (PyVal.dict kvs) k = Except.ok w := by
  unfold dictGet at h
  rcases Option.map_eq_some'.mp h with ⟨pr, hfind, hw⟩
  simp only [py_getitem]
  rw [hfind]
  exact congrArg Except.ok hw

/-- After a dict assignment, lookup at the assigned key sees the new value. -/
lemma dictGet_dictSet_same (kvs : List (String × PyVal)) (k : String) (v : PyVal) :
    dictGet (dictSet kvs k v) k = some v := by
  unfold dictSet
  by_cases hany : kvs.any (fun p => p.1 == k) = true
  · rw [if_pos hany]
    induction kvs with
    | nil => simp at hany
    | cons pr rest ih =>
      by_cases hp : (pr.1 == k) = true
      · unfold dictGet
        simp only [List.map_cons, hp, if_pos]
        rw [List.find?_cons_of_pos _ (by simp)]
        rfl
      · have hrest : rest.any (fun p => p.1 == k) = true := by
          simp only [List.any_cons, hp, Bool.false_or] at hany
          exact hany
        unfold dictGet
        simp only [List.map_cons, hp, if_neg, Bool.not_eq_true]
        rw [List.find?_cons_of_neg _ (by simp [hp])]
        exact ih hrest
  · rw [if_neg hany]
    have hnone : kvs.find? (fun p => p.1 == k) = none := by
      rw [List.find?_eq_none]
      intro pr hmem hp
      exact hany (List.any_eq_true.mpr ⟨pr, hmem, hp⟩)
    unfold dictGet
    rw [List.find?_append, hnone]
    simp

/-- Replacing the pairs at one key does not change lookups at another key. -/
lemma dictGet_map_replace (k kother : String) (v : PyVal)
    (hne : (kother == k) = false) :
    ∀ kvs : List (String × PyVal),
      dictGet (kvs.map (fun p => if p.1 == k then (k, v) else p)) kother =
        dictGet kvs kother := by
  have hko : kother ≠ k := beq_eq_false_iff_ne.mp hne
  have hk2 : (k == kother) = false := beq_eq_false_iff_ne.mpr (fun h => hko h.symm)
  intro kvs
  induction kvs with
  | nil => rfl
  | cons pr rest ih =>
    by_cases hp : (pr.1 == k) = true
    · have hprk : pr.1 = k := eq_of_beq hp
      have hpo : (pr.1 == kother) = false := by rw [hprk]; exact hk2
      unfold dictGet
      simp only [List.map_cons, hp, if_pos]
      rw [List.find?_cons_of_neg _ (by simp [hk2]),
          List.find?_cons_of_neg _ (by simp [hpo])]
      exact ih
    · unfold dictGet
      simp only [List.map_cons, hp, if_neg, Bool.not_eq_true]
      by_cases hpo : (pr.1 == kother) = true
      · rw [List.find?_cons_of_pos _ (by simp [hpo]),
            List.find?_cons_of_pos _ (by simp [hpo])]
      · rw [List.find?_cons_of_neg _ (by simp_all),
            List.find?_cons_of_neg _ (by simp_all)]
        exact ih

/-- A dict assignment leaves lookups at other keys unchanged. -/
lemma dictGet_dictSet_ne (kvs : List (String × PyVal)) (k kother : String)
    (v : PyVal) (hne : (kother == k) = false) :
    dictGet (dictSet kvs k v) kother = dictGet kvs kother := by
  have hko : kother ≠ k := beq_eq_false_iff_ne.mp hne
  have hk2 : (k == kother) = false := beq_eq_false_iff_ne.mpr (fun h => hko h.symm)
  unfold dictSet
  by_cases hany : kvs.any (fun p => p.1 == k) = true
  · rw [if_pos hany]
    exact dictGet_map_replace k kother v hne kvs
  · rw [if_neg hany]
    unfold dictGet
    rw [List.find?_append]
    cases hcc : kvs.find? (fun p => p.1 == kother) with
    | some pr => rfl
    | none =>
      simp [Option.orElse, List.find?, hk2]

/-- When no denylist pattern occurs in the lower-cased combined text, the
pre-filter returns nothing. -/
lemma prefilter_eq_none (p r : String)
    (h : ∀ pat ∈ fake_patterns,
      strContains (strLower (p ++ " " ++ r)) (strLower pat) = false) :
    prefilter p r = Option.none := by
  unfold prefilter
  rw [List.find?_eq_none.mpr (by intro pat hmem; simp [h pat hmem])]
  rfl

/-- When some denylist pattern occurs in the lower-cased combined text,
the pre-filter returns the verdict of the first matching pattern. -/
lemma prefilter_first_match (p r : String)
    (h : ∃ pat ∈ fake_patterns,
      strContains (strLower (p ++ " " ++ r)) (strLower pat) = true) :
    ∃ pat, fake_patterns.find?
        (fun q => strContains (strLower (p ++ " " ++ r)) (strLower q)) = some pat ∧
      prefilter p r = some (prefilter_verdict pat) := by
  rcases h with ⟨pat, hmem, hc⟩
  have hs : (fake_patterns.find?
      (fun q => strContains (strLower (p ++ " " ++ r)) (strLower q))).isSome :=
    List.find?_isSome.mpr ⟨pat, hmem, hc⟩
  rcases Option.isSome_iff_exists.mp hs with ⟨pat0, hfind⟩
  refine ⟨pat0, hfind, ?_⟩
  unfold prefilter
  rw [hfind]
  rfl

/-- Inversion: a pre-filter verdict is the verdict of the first matching
pattern. -/
lemma prefilter_some_inv {p r : String} {v : PyVal}
    (h : prefilter p r = some v) :
    ∃ pat, fake_patterns.find?
        (fun q => strContains (strLower (p ++ " " ++ r)) (strLower q)) = some pat ∧
      v = prefilter_verdict pat := by
  unfold prefilter at h
  rcases Option.map_eq_some'.mp h with ⟨pat, hfind, hv⟩
  exact ⟨pat, hfind, hv.symm⟩

/-- Inversion for a successful dict subscript. -/
lemma py_getitem_ok_inv {data : PyVal} {k : String} {w : PyVal}
    (h : py_getitem data k = Except.ok w) :
    ∃ kvs, data = PyVal.dict kvs ∧ dictGet kvs k = some w := by
  cases data with
  | dict kvs =>
    refine ⟨kvs, rfl, ?_⟩
    simp only [py_getitem] at h
    cases hfind : kvs.find? (fun p => p.1 == k) with
    | none => rw [hfind] at h; exact absurd h (by simp)
    | some pr =>
      rw [hfind] at h
      unfold dictGet
      rw [hfind]
      simpa using h
  | none => exact absurd h (by simp [py_getitem])
  | bool b => exact absurd h (by simp [py_getitem])
  | int n => exact absurd h (by simp [py_getitem])
  | float q => exact absurd h (by simp [py_getitem])
  | str s => exact absurd h (by simp [py_getitem])
  | list xs => exact absurd h (by simp [py_getitem])

/-- The empty string is blank. -/
lemma is_blank_empty : is_blank "" = true := rfl

/-- A non-blank text passes the emptiness test of line 153. -/
lemma not_empty_or_blank {text : String} (hblank : is_blank text = false) :
    ¬ (text = "" ∨ is_blank text = true) := by
  rintro (h | h)
  · rw [h] at hblank
    exact absurd hblank (by simp [is_blank_empty])
  · rw [h] at hblank
    exact absurd hblank (by simp)

/-- Forward run of the parse-and-validate block on a well-formed judge
object: it succeeds and returns the parsed dict with the billed token
count inserted. -/
lemma validate_evaluation_ok (toks : Nat) {loads : String → Option PyVal}
    {text : String} {kvs : List (String × PyVal)} {sv rv fv : PyVal}
    (hblank : is_blank text = false)
    (hload : loads text = some (PyVal.dict kvs))
    (hs : dictGet kvs "score" = some sv) (hsi : isinstance_int sv = true)
    (h1 : 1 ≤ pyIntVal sv) (h5 : pyIntVal sv ≤ 5)
    (hr : dictGet kvs "rationale" = some rv)
    (hf : dictGet kvs "hallucination_flag" = some fv)
    (hfb : isinstance_bool fv = true) :
    validate_evaluation loads text toks =
      Except.ok (PyVal.dict (dictSet kvs "tokens" (PyVal.int toks))) := by
  unfold validate_evaluation
  rw [if_neg (not_empty_or_blank hblank), hload]
  dsimp only
  rw [all_fields_in_dict]
  have hall : required_fields.all (fun f => kvs.any (fun p => p.1 == f)) = true := by
    simp only [required_fields, List.all_cons, List.all_nil,
      any_of_dictGet hs, any_of_dictGet hr, any_of_dictGet hf, Bool.and_self]
  rw [hall]
  rw [py_getitem_dict_of_get hs]
  simp only [hsi]
  rw [if_neg (by simp)]
  rw [if_neg (by simp [h1, h5])]
  rw [py_getitem_dict_of_get hf]
  simp only [hfb]
  rw [if_neg (by simp)]
  rfl

/-- Inversion of a successful run of the parse-and-validate block: the
decoded document was a dict that passed every schema check, and the
result is that dict with the billed token count inserted. -/
lemma validate_evaluation_ok_inv {loads : String → Option PyVal}
    {text : String} {toks : Nat} {v : PyVal}
    (h : validate_evaluation loads text toks = Except.ok v) :
    ∃ kvs sv rv fv,
      loads text = some (PyVal.dict kvs) ∧
      dictGet kvs "score" = some sv ∧ isinstance_int sv = true ∧
      1 ≤ pyIntVal sv ∧ pyIntVal sv ≤ 5 ∧
      dictGet kvs "rationale" = some rv ∧
      dictGet kvs "hallucination_flag" = some fv ∧ isinstance_bool fv = true ∧
      v = PyVal.dict (dictSet kvs "tokens" (PyVal.int toks)) := by
  unfold validate_evaluation at h
  split at h
  · exact absurd h (by simp)
  · split at h
    · exact absurd h (by simp)
    · rename_i data hload
      split at h
      · exact absurd h (by simp)
      · exact absurd h (by simp)
      · rename_i hall
        split at h
        · exact absurd h (by simp)
        · rename_i sv hgets
          split at h
          · exact absurd h (by simp)
          · split at h
            · exact absurd h (by simp)
            · rename_i hsi hrange
              split at h
              · exact absurd h (by simp)
              · rename_i fv hgetf
                split at h
                · exact absurd h (by simp)
                · rename_i hfb
                  split at h
                  · exact absurd h (by simp)
                  · rename_i withTokens hset
                    rcases py_getitem_ok_inv hgets with ⟨kvs, hdata, hdget⟩
                    subst hdata
                    rcases py_getitem_ok_inv hgetf with ⟨kvs2, hinj, hdgetf⟩
                    have hkvs : kvs = kvs2 := by
                      injection hinj with h3
                    subst hkvs
                    have hall2 := hall
                    rw [all_fields_in_dict] at hall2
                    have hallb : required_fields.all
                        (fun f => kvs.any (fun p => p.1 == f)) = true := by
                      have := hall2
                      simpa using this.symm
                    have hrac : kvs.any (fun p => p.1 == "rationale") = true := by
                      simp only [required_fields, List.all_cons, List.all_nil,
                        Bool.and_eq_true] at hallb
                      exact hallb.2.1
                    rcases dictGet_of_any hrac with ⟨rv, hrv⟩
                    have hsi2 : isinstance_int sv = true := by
                      simp only [Bool.not_eq_false] at hsi
                      exact hsi
                    have hrange2 : 1 ≤ pyIntVal sv ∧ pyIntVal sv ≤ 5 := by
                      by_contra hc
                      exact hrange hc
                    have hfb2 : isinstance_bool fv = true := by
                      simp only [Bool.not_eq_false] at hfb
                      exact hfb
                    have hset2 : withTokens = PyVal.dict (dictSet kvs "tokens" (PyVal.int toks)) := by
                      simp only [py_setitem] at hset
                      injection hset with hs2
                      exact hs2.symm
                    have hv : v = withTokens := by
                      injection h with h2
                      exact h2.symm
                    exact ⟨kvs, sv, rv, fv, hload, hdget, hsi2, hrange2.1, hrange2.2,
                      hrv, hdgetf, hfb2, by rw [hv, hset2]⟩

/-- A validation success passes through the inner try unchanged. -/
lemma inner_evaluation_of_ok {loads : String → Option PyVal} {text : String}
    {toks : Nat} {v : PyVal}
    (h : validate_evaluation loads text toks = Except.ok v) :
    inner_evaluation loads text toks = Except.ok v := by
  unfold inner_evaluation
  rw [h]

/-- The inner try either returns a validated dict, or the
Neutral-Parse-Failure default, or re-raises an uncaught exception. -/
lemma inner_evaluation_cases (loads : String → Option PyVal) (text : String)
    (toks : Nat) :
    (∃ v, validate_evaluation loads text toks = Except.ok v ∧
      inner_evaluation loads text toks = Except.ok v) ∨
    inner_evaluation loads text toks = Except.ok (parse_failure_default toks) ∨
    (∃ e, inner_evaluation loads text toks = Except.error e) := by
  unfold inner_evaluation
  cases hv : validate_evaluation loads text toks with
  | ok v => exact Or.inl ⟨v, rfl, rfl⟩
  | error e =>
    dsimp only
    by_cases hc : inner_catchable e = true
    · rw [if_pos hc]
      exact Or.inr (Or.inl rfl)
    · rw [if_neg hc]
      exact Or.inr (Or.inr ⟨e, rfl⟩)

/-- The lookup of an absent key makes the any-test false. -/
lemma any_eq_false_of_dictGet_none {kvs : List (String × PyVal)} {k : String}
    (h : dictGet kvs k = Option.none) :
    kvs.any (fun p => p.1 == k) = false := by
  by_contra hc
  simp only [Bool.not_eq_false] at hc
  rcases dictGet_of_any hc with ⟨w, hw⟩
  rw [h] at hw
  exact absurd hw (by simp)

/-- Any of the schema failures of routes.py lines 153-169 on a decoded
document that is empty text, undecodable text, a decoded value whose lazy
field-membership scan returns False for a required field (possible
exactly for dicts, lists and strs, where the membership test never
raises), or a dict violating the score or flag checks, is caught by the
inner except clause and yields the Neutral-Parse-Failure default with
the billed token count. -/
lemma inner_evaluation_parse_failure (loads : String → Option PyVal)
    (text : String) (toks : Nat)
    (hD : (text = "" ∨ is_blank text = true) ∨ loads text = Option.none ∨
      (∃ data, loads text = some data ∧
        all_fields_in data required_fields = Except.ok false) ∨
      ∃ kvs, loads text = some (PyVal.dict kvs) ∧
        ((∃ sv, dictGet kvs "score" = some sv ∧
           ¬ (isinstance_int sv = true ∧ 1 ≤ pyIntVal sv ∧ pyIntVal sv ≤ 5)) ∨
         (∃ sv fv, dictGet kvs "score" = some sv ∧ isinstance_int sv = true ∧
           1 ≤ pyIntVal sv ∧ pyIntVal sv ≤ 5 ∧
           dictGet kvs "hallucination_flag" = some fv ∧
           isinstance_bool fv = false))) :
    inner_evaluation loads text toks = Except.ok (parse_failure_default toks) := by
  unfold inner_evaluation validate_evaluation
  by_cases hempty : text = "" ∨ is_blank text = true
  · rw [if_pos hempty]
    rfl
  · rw [if_neg hempty]
    rcases hD with hD | hD | ⟨data, hload, hallf⟩ | hD
    · exact absurd hD hempty
    · rw [hD]
      rfl
    · rw [hload]
      dsimp only
      rw [hallf]
      rfl
    · rcases hD with ⟨kvs, hload, hbad⟩
      rw [hload]
      dsimp only
      rw [all_fields_in_dict]
      by_cases hall : required_fields.all (fun f => kvs.any (fun p => p.1 == f)) = true
      · rw [hall]
        dsimp only
        rcases hbad with ⟨sv, hsv, hbadsv⟩ | ⟨sv, fv, hsv, hsi, h1, h5, hfv, hfb⟩
        · rw [py_getitem_dict_of_get hsv]
          dsimp only
          by_cases hsi : isinstance_int sv = false
          · rw [if_pos hsi]
            rfl
          · rw [if_neg hsi]
            simp only [Bool.not_eq_false] at hsi
            have hrange : ¬ (1 ≤ pyIntVal sv ∧ pyIntVal sv ≤ 5) := by
              intro hr2
              exact hbadsv ⟨hsi, hr2.1, hr2.2⟩
            rw [if_pos hrange]
            rfl
        · rw [py_getitem_dict_of_get hsv]
          dsimp only
          rw [if_neg (by simp [hsi]), if_neg (by simp [h1, h5]),
            py_getitem_dict_of_get hfv]
          dsimp only
          rw [if_pos hfb]
          rfl
      · simp only [Bool.not_eq_true] at hall
        rw [hall]
        rfl

/-- Exhaustive characterization of evaluate_response: every run ends on
the pre-filter path, the parsed-success path, the parse-failure path, or
the unavailable path. -/
lemma evaluate_response_cases (loads : String → Option PyVal)
    (p r : String) (j : JudgeOutcome) :
    (∃ pat, fake_patterns.find?
        (fun q => strContains (strLower (p ++ " " ++ r)) (strLower q)) = some pat ∧
      evaluate_response loads p r j = (prefilter_verdict pat, 0)) ∨
    evaluate_response loads p r j = (neutral_unavailable, 1) ∨
    (∃ text toks, j = JudgeOutcome.success text toks ∧
      evaluate_response loads p r j = (parse_failure_default toks, 1)) ∨
    (∃ text toks v, j = JudgeOutcome.success text toks ∧
      validate_evaluation loads text toks = Except.ok v ∧
      evaluate_response loads p r j = (v, 1)) := by
  unfold evaluate_response evaluate_response_unprotected
  cases hpre : prefilter p r with
  | some verdict =>
    rcases prefilter_some_inv hpre with ⟨pat, hfind, hv⟩
    exact Or.inl ⟨pat, hfind, by rw [hv]⟩
  | none =>
    cases j with
    | failure msg => exact Or.inr (Or.inl rfl)
    | success text toks =>
      dsimp only
      rcases inner_evaluation_cases loads text toks with ⟨v, hval, hok⟩ | hpf | ⟨e, herr⟩
      · rw [hok]
        exact Or.inr (Or.inr (Or.inr ⟨text, toks, v, rfl, hval, rfl⟩))
      · rw [hpf]
        exact Or.inr (Or.inr (Or.inl ⟨text, toks, rfl, rfl⟩))
      · rw [herr]
        exact Or.inr (Or.inl rfl)

/-- C1: for every input pair and every behaviour of the remote judge call,
evaluate_response returns a verdict value; every exception the unprotected
body can raise is caught by the outer handler and degrades to the
Neutral-Unavailable verdict instead of propagating. -/
theorem C1_never_raises (loads : String → Option PyVal) (p r : String)
    (j : JudgeOutcome) :
    ∃ verdict calls, evaluate_response loads p r j = (verdict, calls) ∧
      (evaluate_response_unprotected loads p r j = Except.ok (verdict, calls) ∨
       ∃ e, evaluate_response_unprotected loads p r j = Except.error e ∧
         verdict = neutral_unavailable ∧ calls = 1) := by
  unfold evaluate_response
  cases hu : evaluate_response_unprotected loads p r j with
  | ok res => exact ⟨res.1, res.2, rfl, Or.inl rfl⟩
  | error e => exact ⟨neutral_unavailable, 1, rfl, Or.inr ⟨e, rfl, rfl, rfl⟩⟩

/-- C1 exercised at a concrete failing judge call. -/
theorem C1_witness :
    ∃ verdict calls, evaluate_response (fun _ => Option.none) "What is OSPF?"
        "OSPF is a routing protocol." (JudgeOutcome.failure "timeout") = (verdict, calls) ∧
      (evaluate_response_unprotected (fun _ => Option.none) "What is OSPF?"
          "OSPF is a routing protocol." (JudgeOutcome.failure "timeout") = Except.ok (verdict, calls) ∨
       ∃ e, evaluate_response_unprotected (fun _ => Option.none) "What is OSPF?"
          "OSPF is a routing protocol." (JudgeOutcome.failure "timeout") = Except.error e ∧
         verdict = neutral_unavailable ∧ calls = 1) :=
  C1_never_raises (fun _ => Option.none) "What is OSPF?"
    "OSPF is a routing protocol." (JudgeOutcome.failure "timeout")

/-- C3: on any input whose lower-cased prompt+response combination
contains a denylisted substring, evaluate_response returns score 1,
hallucination_flag true, tokens 0, a rationale naming the first matched
pattern as a non-existent device, and never invokes the remote judge
call. -/
theorem C3_denylist_short_circuit (loads : String → Option PyVal)
    (p r : String) (j : JudgeOutcome)
    (h : ∃ pat ∈ fake_patterns,
      strContains (strLower (p ++ " " ++ r)) (strLower pat) = true) :
    ∃ pat, fake_patterns.find?
        (fun q => strContains (strLower (p ++ " " ++ r)) (strLower q)) = some pat ∧
      evaluate_response loads p r j = (prefilter_verdict pat, 0) ∧
      getField (evaluate_response loads p r j).1 "score" = some (PyVal.int 1) ∧
      getField (evaluate_response loads p r j).1 "hallucination_flag" = some (PyVal.bool true) ∧
      getField (evaluate_response loads p r j).1 "tokens" = some (PyVal.int 0) ∧
      getField (evaluate_response loads p r j).1 "rationale" =
        some (PyVal.str (prefilter_rationale pat)) ∧
      (evaluate_response loads p r j).2 = 0 := by
  rcases prefilter_first_match p r h with ⟨pat, hfind, hpre⟩
  have heval : evaluate_response loads p r j = (prefilter_verdict pat, 0) := by
    unfold evaluate_response evaluate_response_unprotected
    rw [hpre]
  refine ⟨pat, hfind, heval, ?_, ?_, ?_, ?_, ?_⟩ <;> rw [heval] <;> rfl

/-- C3 exercised at the Letort scenario of the spec: the prompt about a
Letort 9000 router matches the denylist pattern letort. -/
theorem C3_witness :
    (∃ pat, fake_patterns.find?
        (fun q => strContains (strLower ("How do I configure a Letort 9000 router?" ++ " " ++ ""))
          (strLower q)) = some pat ∧
      evaluate_response (fun _ => Option.none) "How do I configure a Letort 9000 router?" ""
          (JudgeOutcome.failure "unused") = (prefilter_verdict pat, 0) ∧
      getField (evaluate_response (fun _ => Option.none) "How do I configure a Letort 9000 router?" ""
          (JudgeOutcome.failure "unused")).1 "score" = some (PyVal.int 1) ∧
      getField (evaluate_response (fun _ => Option.none) "How do I configure a Letort 9000 router?" ""
          (JudgeOutcome.failure "unused")).1 "hallucination_flag" = some (PyVal.bool true) ∧
      getField (evaluate_response (fun _ => Option.none) "How do I configure a Letort 9000 router?" ""
          (JudgeOutcome.failure "unused")).1 "tokens" = some (PyVal.int 0) ∧
      getField (evaluate_response (fun _ => Option.none) "How do I configure a Letort 9000 router?" ""
          (JudgeOutcome.failure "unused")).1 "rationale" =
        some (PyVal.str (prefilter_rationale pat)) ∧
      (evaluate_response (fun _ => Option.none) "How do I configure a Letort 9000 router?" ""
          (JudgeOutcome.failure "unused")).2 = 0) ∧
    fake_patterns.find?
        (fun q => strContains (strLower ("How do I configure a Letort 9000 router?" ++ " " ++ ""))
          (strLower q)) = some "letort" :=
  And.intro
    (C3_denylist_short_circuit (fun _ => Option.none)
      "How do I configure a Letort 9000 router?" "" (JudgeOutcome.failure "unused")
      ⟨"letort", List.Mem.head _, rfl⟩)
    rfl

/-- C4: on any input with no denylist match, a failure raised by the
remote judge call itself yields exactly the Neutral-Unavailable default. -/
theorem C4_unavailable_default (loads : String → Option PyVal)
    (p r msg : String)
    (h : ∀ pat ∈ fake_patterns,
      strContains (strLower (p ++ " " ++ r)) (strLower pat) = false) :
    evaluate_response loads p r (JudgeOutcome.failure msg) = (neutral_unavailable, 1) := by
  unfold evaluate_response evaluate_response_unprotected
  rw [prefilter_eq_none p r h]

/-- C4 exercised at a concrete timed-out judge call. -/
theorem C4_witness :
    evaluate_response (fun _ => Option.none) "What is OSPF?"
      "OSPF is a routing protocol." (JudgeOutcome.failure "timeout") =
      (neutral_unavailable, 1) :=
  C4_unavailable_default (fun _ => Option.none) "What is OSPF?"
    "OSPF is a routing protocol." "timeout" (by decide)

/-- C2 as stated is refuted: the judge text 3 is valid JSON that is
missing all three required fields, yet evaluate_response returns the
Neutral-Unavailable default with tokens 0 instead of the
Neutral-Parse-Failure default with the 7 billed tokens, because the
membership test raises a TypeError that the inner except clause does not
catch. -/
theorem C2_counterexample :
    evaluate_response (fun _ => some (PyVal.int 3)) "What is OSPF?"
        "OSPF is a routing protocol." (JudgeOutcome.success "3" 7) =
      (neutral_unavailable, 1) ∧
    getField (evaluate_response (fun _ => some (PyVal.int 3)) "What is OSPF?"
        "OSPF is a routing protocol." (JudgeOutcome.success "3" 7)).1 "rationale" ≠
      some (PyVal.str "Evaluation parsing failed - assigned neutral score") ∧
    getField (evaluate_response (fun _ => some (PyVal.int 3)) "What is OSPF?"
        "OSPF is a routing protocol." (JudgeOutcome.success "3" 7)).1 "tokens" ≠
      some (PyVal.int 7) := by
  refine ⟨rfl, ?_, ?_⟩
  · intro h
    have h2 : (some (PyVal.str "Evaluation service unavailable - assigned neutral score") :
        Option PyVal) = some (PyVal.str "Evaluation parsing failed - assigned neutral score") := h
    have h3 := PyVal.str.inj (Option.some.inj h2)
    exact absurd h3 (by decide)
  · intro h
    have h2 : (some (PyVal.int 0) : Option PyVal) = some (PyVal.int 7) := h
    have h3 := PyVal.int.inj (Option.some.inj h2)
    exact absurd h3 (by decide)

/-- C2 amended: with no denylist match, a successful judge call whose
text is empty or blank, or does not decode as JSON, or decodes to a
value (a JSON object, array, or string) for which the lazy
field-membership scan of line 160 finds a required field absent without
raising, or decodes to a JSON object with the fields present whose score
fails the isinstance-int check (Python bools count as ints, True as 1)
or lies outside [1,5], or whose hallucination_flag is not a boolean,
yields exactly the Neutral-Parse-Failure default carrying the billed
token count, with the judge called exactly once and never retried. -/
theorem C2_parse_failure_default (loads : String → Option PyVal)
    (p r text : String) (toks : Nat)
    (hpre : ∀ pat ∈ fake_patterns,
      strContains (strLower (p ++ " " ++ r)) (strLower pat) = false)
    (hD : (text = "" ∨ is_blank text = true) ∨ loads text = Option.none ∨
      (∃ data, loads text = some data ∧
        all_fields_in data required_fields = Except.ok false) ∨
      ∃ kvs, loads text = some (PyVal.dict kvs) ∧
        ((∃ sv, dictGet kvs "score" = some sv ∧
           ¬ (isinstance_int sv = true ∧ 1 ≤ pyIntVal sv ∧ pyIntVal sv ≤ 5)) ∨
         (∃ sv fv, dictGet kvs "score" = some sv ∧ isinstance_int sv = true ∧
           1 ≤ pyIntVal sv ∧ pyIntVal sv ≤ 5 ∧
           dictGet kvs "hallucination_flag" = some fv ∧
           isinstance_bool fv = false))) :
    evaluate_response loads p r (JudgeOutcome.success text toks) =
      (parse_failure_default toks, 1) := by
  unfold evaluate_response evaluate_response_unprotected
  rw [prefilter_eq_none p r hpre]
  dsimp only
  rw [inner_evaluation_parse_failure loads text toks hD]

/-- C2 amended exercised at a judge answer decoding to the empty JSON
array: the membership test for score returns False, so the verdict is
the Neutral-Parse-Failure default with the 55 billed tokens. -/
theorem C2_witness :
    evaluate_response (fun _ => some (PyVal.list [])) "What is OSPF?"
        "OSPF is a routing protocol." (JudgeOutcome.success "[]" 55) =
      (parse_failure_default 55, 1) :=
  C2_parse_failure_default (fun _ => some (PyVal.list [])) "What is OSPF?"
    "OSPF is a routing protocol." "[]" 55 (by decide)
    (Or.inr (Or.inr (Or.inl ⟨PyVal.list [], rfl, rfl⟩)))

/-- C5: with no denylist match, a successful judge call whose text
decodes as a JSON object with an integer score in [1,5], a rationale, and
a boolean hallucination_flag yields a verdict mirroring those parsed
values exactly, with the reported billed token count. -/
theorem C5_success_passthrough (loads : String → Option PyVal)
    (p r text : String) (toks : Nat) (kvs : List (String × PyVal))
    (n : Int) (rv : PyVal) (b : Bool)
    (hpre : ∀ pat ∈ fake_patterns,
      strContains (strLower (p ++ " " ++ r)) (strLower pat) = false)
    (hblank : is_blank text = false)
    (hload : loads text = some (PyVal.dict kvs))
    (hs : dictGet kvs "score" = some (PyVal.int n))
    (h1 : 1 ≤ n) (h5 : n ≤ 5)
    (hr : dictGet kvs "rationale" = some rv)
    (hf : dictGet kvs "hallucination_flag" = some (PyVal.bool b)) :
    getField (evaluate_response loads p r (JudgeOutcome.success text toks)).1 "score" =
      some (PyVal.int n) ∧
    getField (evaluate_response loads p r (JudgeOutcome.success text toks)).1 "rationale" =
      some rv ∧
    getField (evaluate_response loads p r (JudgeOutcome.success text toks)).1 "hallucination_flag" =
      some (PyVal.bool b) ∧
    getField (evaluate_response loads p r (JudgeOutcome.success text toks)).1 "tokens" =
      some (PyVal.int toks) ∧
    (evaluate_response loads p r (JudgeOutcome.success text toks)).2 = 1 := by
  have hval := validate_evaluation_ok toks hblank hload hs rfl h1 h5 hr hf rfl
  have heval : evaluate_response loads p r (JudgeOutcome.success text toks) =
      (PyVal.dict (dictSet kvs "tokens" (PyVal.int toks)), 1) := by
    unfold evaluate_response evaluate_response_unprotected
    rw [prefilter_eq_none p r hpre]
    dsimp only
    rw [inner_evaluation_of_ok hval]
  rw [heval]
  refine ⟨?_, ?_, ?_, ?_, rfl⟩
  · show dictGet (dictSet kvs "tokens" (PyVal.int toks)) "score" = some (PyVal.int n)
    rw [dictGet_dictSet_ne kvs "tokens" "score" (PyVal.int toks) rfl]
    exact hs
  · show dictGet (dictSet kvs "tokens" (PyVal.int toks)) "rationale" = some rv
    rw [dictGet_dictSet_ne kvs "tokens" "rationale" (PyVal.int toks) rfl]
    exact hr
  · show dictGet (dictSet kvs "tokens" (PyVal.int toks)) "hallucination_flag" = some (PyVal.bool b)
    rw [dictGet_dictSet_ne kvs "tokens" "hallucination_flag" (PyVal.int toks) rfl]
    exact hf
  · show dictGet (dictSet kvs "tokens" (PyVal.int toks)) "tokens" = some (PyVal.int toks)
    exact dictGet_dictSet_same kvs "tokens" (PyVal.int toks)

/-- C5 exercised at the spec scenario: a well-formed judge JSON with
score 5 and 120 billed tokens passes through unchanged. -/
theorem C5_witness :
    getField (evaluate_response
        (fun _ => some (PyVal.dict
          [("score", PyVal.int 5), ("rationale", PyVal.str "Accurate and complete"),
           ("hallucination_flag", PyVal.bool false)]))
        "What is OSPF?" "OSPF is a routing protocol."
        (JudgeOutcome.success "scenario-json" 120)).1 "score" = some (PyVal.int 5) ∧
    getField (evaluate_response
        (fun _ => some (PyVal.dict
          [("score", PyVal.int 5), ("rationale", PyVal.str "Accurate and complete"),
           ("hallucination_flag", PyVal.bool false)]))
        "What is OSPF?" "OSPF is a routing protocol."
        (JudgeOutcome.success "scenario-json" 120)).1 "rationale" =
      some (PyVal.str "Accurate and complete") ∧
    getField (evaluate_response
        (fun _ => some (PyVal.dict
          [("score", PyVal.int 5), ("rationale", PyVal.str "Accurate and complete"),
           ("hallucination_flag", PyVal.bool false)]))
        "What is OSPF?" "OSPF is a routing protocol."
        (JudgeOutcome.success "scenario-json" 120)).1 "hallucination_flag" =
      some (PyVal.bool false) ∧
    getField (evaluate_response
        (fun _ => some (PyVal.dict
          [("score", PyVal.int 5), ("rationale", PyVal.str "Accurate and complete"),
           ("hallucination_flag", PyVal.bool false)]))
        "What is OSPF?" "OSPF is a routing protocol."
        (JudgeOutcome.success "scenario-json" 120)).1 "tokens" = some (PyVal.int 120) ∧
    (evaluate_response
        (fun _ => some (PyVal.dict
          [("score", PyVal.int 5), ("rationale", PyVal.str "Accurate and complete"),
           ("hallucination_flag", PyVal.bool false)]))
        "What is OSPF?" "OSPF is a routing protocol."
        (JudgeOutcome.success "scenario-json" 120)).2 = 1 :=
  C5_success_passthrough
    (fun _ => some (PyVal.dict
      [("score", PyVal.int 5), ("rationale", PyVal.str "Accurate and complete"),
       ("hallucination_flag", PyVal.bool false)]))
    "What is OSPF?" "OSPF is a routing protocol." "scenario-json" 120
    [("score", PyVal.int 5), ("rationale", PyVal.str "Accurate and complete"),
     ("hallucination_flag", PyVal.bool false)]
    5 (PyVal.str "Accurate and complete") false
    (by decide) rfl rfl rfl (by decide) (by decide) rfl rfl

/-- C8: with no denylist match, the remote judge call is invoked exactly
once, whatever its outcome. -/
theorem C8_single_call (loads : String → Option PyVal) (p r : String)
    (j : JudgeOutcome)
    (h : ∀ pat ∈ fake_patterns,
      strContains (strLower (p ++ " " ++ r)) (strLower pat) = false) :
    (evaluate_response loads p r j).2 = 1 := by
  unfold evaluate_response evaluate_response_unprotected
  rw [prefilter_eq_none p r h]
  cases j with
  | failure msg => rfl
  | success text toks =>
    dsimp only
    cases hi : inner_evaluation loads text toks with
    | ok v => rfl
    | error e => rfl

/-- C8 exercised at a concrete unparseable judge answer. -/
theorem C8_witness :
    (evaluate_response (fun _ => Option.none) "What is OSPF?"
      "OSPF is a routing protocol." (JudgeOutcome.success "not json" 55)).2 = 1 :=
  C8_single_call (fun _ => Option.none) "What is OSPF?"
    "OSPF is a routing protocol." (JudgeOutcome.success "not json" 55) (by decide)

/-- The pre-filter rationale is never the empty string. -/
lemma prefilter_rationale_ne (pat : String) : prefilter_rationale pat ≠ "" := by
  intro h
  have hlen := congrArg String.length h
  simp [prefilter_rationale, String.length_append, apos] at hlen

/-- C6: every verdict, on every path, carries a score that is a Python
int (possibly a bool, which Python treats as an int) with value between 1
and 5, and a non-negative integer token count that is 0 whenever no
remote call completed (pre-filter short-circuit or failed call). -/
theorem C6_verdict_invariants (loads : String → Option PyVal) (p r : String)
    (j : JudgeOutcome) :
    ∃ sv t, getField (evaluate_response loads p r j).1 "score" = some sv ∧
      isinstance_int sv = true ∧ 1 ≤ pyIntVal sv ∧ pyIntVal sv ≤ 5 ∧
      getField (evaluate_response loads p r j).1 "tokens" = some (PyVal.int t) ∧
      0 ≤ t ∧
      (((evaluate_response loads p r j).2 = 0 ∨ ∃ msg, j = JudgeOutcome.failure msg) →
        t = 0) := by
  rcases evaluate_response_cases loads p r j with
    ⟨pat, hfind, heval⟩ | heval | ⟨text, toks, hj, heval⟩ |
    ⟨text, toks, v, hj, hval, heval⟩
  · refine ⟨PyVal.int 1, 0, ?_, rfl, by decide, by decide, ?_, le_refl 0, fun _ => rfl⟩
    · rw [heval]
      rfl
    · rw [heval]
      rfl
  · refine ⟨PyVal.int 3, 0, ?_, rfl, by decide, by decide, ?_, le_refl 0, fun _ => rfl⟩
    · rw [heval]
      rfl
    · rw [heval]
      rfl
  · refine ⟨PyVal.int 3, toks, ?_, rfl, by decide, by decide, ?_, Int.natCast_nonneg toks, ?_⟩
    · rw [heval]
      rfl
    · rw [heval]
      rfl
    · rintro (hcalls | ⟨msg, hmsg⟩)
      · rw [heval] at hcalls
        simp at hcalls
      · rw [hj] at hmsg
        exact absurd hmsg (by simp)
  · rcases validate_evaluation_ok_inv hval with
      ⟨kvs, sv, rv, fv, hload, hsv, hsi, hle1, hle5, hrv, hfv, hfb, hv⟩
    refine ⟨sv, toks, ?_, hsi, hle1, hle5, ?_, Int.natCast_nonneg toks, ?_⟩
    · rw [heval, hv]
      show dictGet (dictSet kvs "tokens" (PyVal.int toks)) "score" = some sv
      rw [dictGet_dictSet_ne kvs "tokens" "score" (PyVal.int toks) rfl]
      exact hsv
    · rw [heval, hv]
      exact dictGet_dictSet_same kvs "tokens" (PyVal.int toks)
    · rintro (hcalls | ⟨msg, hmsg⟩)
      · rw [heval] at hcalls
        simp at hcalls
      · rw [hj] at hmsg
        exact absurd hmsg (by simp)

/-- C6 exercised at a concrete failed judge call. -/
theorem C6_witness :
    ∃ sv t, getField (evaluate_response (fun _ => Option.none) "What is OSPF?"
        "OSPF is a routing protocol." (JudgeOutcome.failure "timeout")).1 "score" = some sv ∧
      isinstance_int sv = true ∧ 1 ≤ pyIntVal sv ∧ pyIntVal sv ≤ 5 ∧
      getField (evaluate_response (fun _ => Option.none) "What is OSPF?"
        "OSPF is a routing protocol." (JudgeOutcome.failure "timeout")).1 "tokens" =
        some (PyVal.int t) ∧
      0 ≤ t ∧
      (((evaluate_response (fun _ => Option.none) "What is OSPF?"
          "OSPF is a routing protocol." (JudgeOutcome.failure "timeout")).2 = 0 ∨
        ∃ msg, JudgeOutcome.failure "timeout" = JudgeOutcome.failure msg) → t = 0) :=
  C6_verdict_invariants (fun _ => Option.none) "What is OSPF?"
    "OSPF is a routing protocol." (JudgeOutcome.failure "timeout")

/-- C7 as stated is refuted: a well-formed judge object whose rationale is
the empty string passes validation, so the returned verdict carries an
empty rationale on the parsed-success path. -/
theorem C7_counterexample :
    getField (evaluate_response
        (fun _ => some (PyVal.dict
          [("score", PyVal.int 4), ("rationale", PyVal.str ""),
           ("hallucination_flag", PyVal.bool false)]))
        "What is OSPF?" "OSPF is a routing protocol."
        (JudgeOutcome.success "scenario-json" 9)).1 "rationale" = some (PyVal.str "") ∧
    ¬ ∃ s, getField (evaluate_response
        (fun _ => some (PyVal.dict
          [("score", PyVal.int 4), ("rationale", PyVal.str ""),
           ("hallucination_flag", PyVal.bool false)]))
        "What is OSPF?" "OSPF is a routing protocol."
        (JudgeOutcome.success "scenario-json" 9)).1 "rationale" = some (PyVal.str s) ∧
      s ≠ "" := by
  refine ⟨rfl, ?_⟩
  rintro ⟨s, hs, hne⟩
  have h2 : (some (PyVal.str "") : Option PyVal) = some (PyVal.str s) := hs
  exact hne (PyVal.str.inj (Option.some.inj h2)).symm

/-- C7 amended: on the pre-filter, parse-failure and unavailable paths the
rationale is a non-empty string; on the parsed-success path it is exactly
the rationale value of the judge object, which need not be a non-empty
string. -/
theorem C7_rationale_amended (loads : String → Option PyVal) (p r : String)
    (j : JudgeOutcome) :
    ∃ rv, getField (evaluate_response loads p r j).1 "rationale" = some rv ∧
      ((∃ s, rv = PyVal.str s ∧ s ≠ "") ∨
       ∃ text toks kvs, j = JudgeOutcome.success text toks ∧
         loads text = some (PyVal.dict kvs) ∧
         dictGet kvs "rationale" = some rv) := by
  rcases evaluate_response_cases loads p r j with
    ⟨pat, hfind, heval⟩ | heval | ⟨text, toks, hj, heval⟩ |
    ⟨text, toks, v, hj, hval, heval⟩
  · refine ⟨PyVal.str (prefilter_rationale pat), ?_,
      Or.inl ⟨prefilter_rationale pat, rfl, prefilter_rationale_ne pat⟩⟩
    rw [heval]
    rfl
  · refine ⟨PyVal.str "Evaluation service unavailable - assigned neutral score", ?_,
      Or.inl ⟨_, rfl, by decide⟩⟩
    rw [heval]
    rfl
  · refine ⟨PyVal.str "Evaluation parsing failed - assigned neutral score", ?_,
      Or.inl ⟨_, rfl, by decide⟩⟩
    rw [heval]
    rfl
  · rcases validate_evaluation_ok_inv hval with
      ⟨kvs, sv, rv, fv, hload, hsv, hsi, hle1, hle5, hrv, hfv, hfb, hv⟩
    refine ⟨rv, ?_, Or.inr ⟨text, toks, kvs, hj, hload, hrv⟩⟩
    rw [heval, hv]
    show dictGet (dictSet kvs "tokens" (PyVal.int toks)) "rationale" = some rv
    rw [dictGet_dictSet_ne kvs "tokens" "rationale" (PyVal.int toks) rfl]
    exact hrv

/-- C7 amended exercised at a concrete denylist hit. -/
theorem C7_witness :
    ∃ rv, getField (evaluate_response (fun _ => Option.none)
        "How do I configure a Letort 9000 router?" ""
        (JudgeOutcome.failure "unused")).1 "rationale" = some rv ∧
      ((∃ s, rv = PyVal.str s ∧ s ≠ "") ∨
       ∃ text toks kvs, JudgeOutcome.failure "unused" = JudgeOutcome.success text toks ∧
         (fun (_ : String) => (Option.none : Option PyVal)) text = some (PyVal.dict kvs) ∧
         dictGet kvs "rationale" = some rv) :=
  C7_rationale_amended (fun _ => Option.none)
    "How do I configure a Letort 9000 router?" "" (JudgeOutcome.failure "unused")

/-- C9: evaluate_response is deterministic: two runs with the same prompt
and response, the same JSON-decoder behaviour, and the same judge-call
outcome return equal verdicts; no state survives between invocations in
the embedding. -/
theorem C9_deterministic (loads loads2 : String → Option PyVal)
    (p p2 r r2 : String) (j j2 : JudgeOutcome)
    (hl : ∀ s, loads s = loads2 s) (hp : p = p2) (hr : r = r2) (hj : j = j2) :
    evaluate_response loads p r j = evaluate_response loads2 p2 r2 j2 := by
  subst hp
  subst hr
  subst hj
  rw [funext hl]

/-- C9 exercised at a concrete repeated run. -/
theorem C9_witness :
    evaluate_response (fun _ => Option.none) "What is OSPF?"
      "OSPF is a routing protocol." (JudgeOutcome.failure "timeout") =
    evaluate_response (fun _ => Option.none) "What is OSPF?"
      "OSPF is a routing protocol." (JudgeOutcome.failure "timeout") :=
  C9_deterministic (fun _ => Option.none) (fun _ => Option.none)
    "What is OSPF?" "What is OSPF?" "OSPF is a routing protocol."
    "OSPF is a routing protocol." (JudgeOutcome.failure "timeout")
    (JudgeOutcome.failure "timeout") (fun _ => rfl) rfl rfl rfl

/-- C10: a judge object whose score is the JSON boolean true passes the
schema validation, because Python bools are ints and 1 <= True <= 5
holds, and the returned verdict carries that boolean as its score rather
than the Neutral-Parse-Failure default. -/
theorem C10_bool_score_accepted (loads : String → Option PyVal)
    (p r text : String) (toks : Nat) (kvs : List (String × PyVal))
    (rv : PyVal) (b : Bool)
    (hpre : ∀ pat ∈ fake_patterns,
      strContains (strLower (p ++ " " ++ r)) (strLower pat) = false)
    (hblank : is_blank text = false)
    (hload : loads text = some (PyVal.dict kvs))
    (hs : dictGet kvs "score" = some (PyVal.bool true))
    (hr : dictGet kvs "rationale" = some rv)
    (hf : dictGet kvs "hallucination_flag" = some (PyVal.bool b)) :
    (∃ v, validate_evaluation loads text toks = Except.ok v) ∧
    getField (evaluate_response loads p r (JudgeOutcome.success text toks)).1 "score" =
      some (PyVal.bool true) ∧
    (evaluate_response loads p r (JudgeOutcome.success text toks)).1 ≠
      parse_failure_default toks := by
  have hval := validate_evaluation_ok toks hblank hload hs rfl
    (by decide) (by decide) hr hf rfl
  have heval : evaluate_response loads p r (JudgeOutcome.success text toks) =
      (PyVal.dict (dictSet kvs "tokens" (PyVal.int toks)), 1) := by
    unfold evaluate_response evaluate_response_unprotected
    rw [prefilter_eq_none p r hpre]
    dsimp only
    rw [inner_evaluation_of_ok hval]
  have hscore : getField (evaluate_response loads p r
      (JudgeOutcome.success text toks)).1 "score" = some (PyVal.bool true) := by
    rw [heval]
    show dictGet (dictSet kvs "tokens" (PyVal.int toks)) "score" = some (PyVal.bool true)
    rw [dictGet_dictSet_ne kvs "tokens" "score" (PyVal.int toks) rfl]
    exact hs
  refine ⟨⟨_, hval⟩, hscore, ?_⟩
  intro hdef
  have h2 := hscore
  rw [hdef] at h2
  have h3 : (some (PyVal.int 3) : Option PyVal) = some (PyVal.bool true) := h2
  exact PyVal.noConfusion (Option.some.inj h3)

/-- C10 exercised at a concrete judge object with score true. -/
theorem C10_witness :
    (∃ v, validate_evaluation
        (fun _ => some (PyVal.dict
          [("score", PyVal.bool true), ("rationale", PyVal.str "fine"),
           ("hallucination_flag", PyVal.bool false)]))
        "scenario-json" 42 = Except.ok v) ∧
    getField (evaluate_response
        (fun _ => some (PyVal.dict
          [("score", PyVal.bool true), ("rationale", PyVal.str "fine"),
           ("hallucination_flag", PyVal.bool false)]))
        "What is OSPF?" "OSPF is a routing protocol."
        (JudgeOutcome.success "scenario-json" 42)).1 "score" = some (PyVal.bool true) ∧
    (evaluate_response
        (fun _ => some (PyVal.dict
          [("score", PyVal.bool true), ("rationale", PyVal.str "fine"),
           ("hallucination_flag", PyVal.bool false)]))
        "What is OSPF?" "OSPF is a routing protocol."
        (JudgeOutcome.success "scenario-json" 42)).1 ≠ parse_failure_default 42 :=
  C10_bool_score_accepted
    (fun _ => some (PyVal.dict
      [("score", PyVal.bool true), ("rationale", PyVal.str "fine"),
       ("hallucination_flag", PyVal.bool false)]))
    "What is OSPF?" "OSPF is a routing protocol." "scenario-json" 42
    [("score", PyVal.bool true), ("rationale", PyVal.str "fine"),
     ("hallucination_flag", PyVal.bool false)]
    (PyVal.str "fine") false (by decide) rfl rfl rfl rfl rfl
